import Mathlib

/-!
Verification development for the couchdbkit client library.

The Python source is shallowly embedded: JSON values are an inductive type,
Python dicts are association lists with insertion-order update semantics,
raised exceptions are an error type threaded through `Except`, and the
mutable `ViewResults` object is a record updated by explicit state passing.
Each embedded definition is translated from the corresponding function in
`couchdbkit/client.py`, `couchdbkit/designer/macros.py`,
`couchdbkit/consumer/base.py` and `couchdbkit/consumer/sync.py`.
-/

/-- A decoded JSON value (the values Python's json module produces).
Numbers are modelled as integers; no claim involves floats. -/
inductive JsonVal where
  | obj (entries : List (String × JsonVal)) : JsonVal
  | arr (items : List JsonVal) : JsonVal
  | str (text : String) : JsonVal
  | num (value : Int) : JsonVal
  | bool (flag : Bool) : JsonVal
  | null : JsonVal

/-- Python `v is None`. -/
def JsonVal.isNull : JsonVal → Bool
  | .null => true
  | _ => false

/-- A Python dict with string keys, as an association list in insertion order. -/
abbrev Dict := List (String × JsonVal)

/-- Python `d.get(k)` / `d[k]` lookup (first binding wins; dicts built by
`dset` never hold duplicate keys). -/
def dget : Dict → String → Option JsonVal
  | [], _ => none
  | (k, v) :: rest, key => if k = key then some v else dget rest key

/-- Python `d[k] = v`: replace the existing binding in place, else append. -/
def dset : Dict → String → JsonVal → Dict
  | [], key, val => [(key, val)]
  | (k, v) :: rest, key, val =>
      if k = key then (k, val) :: rest else (k, v) :: dset rest key val

/-- Python `dict(d1, **d2)`: copy of d1 updated with every binding of d2. -/
def dmerge (d1 d2 : Dict) : Dict :=
  d2.foldl (fun acc kv => dset acc kv.1 kv.2) d1

/-- Python truthiness of a JSON value (`bool(v)`). -/
def truthy : JsonVal → Bool
  | .null => false
  | .bool b => b
  | .num n => n != 0
  | .str s => s != ""
  | .arr xs => !xs.isEmpty
  | .obj fields => !fields.isEmpty

/-- Python `d.get(k)` where an absent key and an explicit JSON null both
come out as the Python value `None`. -/
def pyGet (d : Dict) (k : String) : JsonVal :=
  (dget d k).getD .null

/-- The Python exceptions the embedded code can raise.  `configurationError`
is modelled from the spec: the spec's error taxonomy (section 7) names a
`ConfigurationError` for invalid option combinations, but the library source
defines no such class; the source guards the wrapper/schema combination with
a plain `assert`, whose failure is `assertionError`. -/
inductive PyErr where
  | assertionError : PyErr
  | configurationError : PyErr
  | multipleResultsFound (msg : String) : PyErr
  | noResultFound : PyErr
  | typeError (msg : String) : PyErr
  | keyError (k : String) : PyErr
  | attributeError (msg : String) : PyErr
  | macroError (msg : String) : PyErr
  | recursionError : PyErr
deriving DecidableEq

/-- `couchdbkit.client.ViewResults`: the lazy view query result object.
`fetchfn` is the stored `self._fetch` executor capability; the remaining
fields are the instance attributes set in `__init__` and mutated by
`fetch`.  `trows` is `self._total_rows` (Python `None` modelled as
`JsonVal.null`, matching `dict.get`), `off` is `self._offset`. -/
structure ViewResults where
  fetchfn : String → Dict → Dict
  arg : String
  wrapper : JsonVal → JsonVal
  params : Dict
  result_cache : Option Dict
  trows : JsonVal
  off : JsonVal
  dynamic_keys : List String

/-- The row wrapper `__init__` builds when a schema is supplied
(`client.py`, the inner `row_wrapper` of the schema branch).
`schema_wrapper` stands for `maybe_schema_wrapper(schema, params)`, which
lives in `couchdbkit/schema/util.py`; modelled from the spec: the schema
component exposes `wrap(rawDict) -> typedDocument`, an opaque function. -/
def schemaRowWrapper (schema_wrapper : JsonVal → JsonVal) (wrap_doc : Bool)
    (row : JsonVal) : JsonVal :=
  let data := match row with | .obj f => pyGet f "value" | _ => .null
  let docid := match row with | .obj f => pyGet f "id" | _ => .null
  let doc := match row with | .obj f => pyGet f "doc" | _ => .null
  if !doc.isNull && wrap_doc then schema_wrapper doc
  else if !truthy data then row
  else
    match data with
    | .obj fields =>
        if !truthy docid then row
        else
          let f1 := dset fields "_id" docid
          let f2 := match dget f1 "rev" with
            | some rv => dset (f1.filter (fun kv => kv.1 ≠ "rev")) "_rev" rv
            | none => f1
          schema_wrapper (.obj f2)
    | _ => row

/-- `ViewResults.__init__`.  `assert not (wrapper and schema)` raises an
`AssertionError` when both are supplied (functions and schema objects are
always truthy).  Otherwise the attributes are initialised as in the source:
`wrapper or row_wrapper`, `params or {}` (the identity on association
lists), empty cache, `_total_rows = None`, `_offset = 0`. -/
def ViewResults.init (fetchfn : String → Dict → Dict) (arg : String)
    (wrapper : Option (JsonVal → JsonVal)) (schema : Option (JsonVal → JsonVal))
    (params : Dict) : Except PyErr ViewResults :=
  if wrapper.isSome ∧ schema.isSome then .error .assertionError
  else
    let wrap_doc := match dget params "wrap_doc" with
      | some v => truthy v
      | none => schema.isSome
    let row_wrapper : JsonVal → JsonVal :=
      match schema with
      | some sw => schemaRowWrapper sw wrap_doc
      | none => fun row => row
    .ok { fetchfn := fetchfn, arg := arg,
          wrapper := wrapper.getD row_wrapper,
          params := params,
          result_cache := none,
          trows := .null,
          off := .num 0,
          dynamic_keys := [] }

/-- `ViewResults.fetch`: invoke the executor, cache the decoded mapping,
extract `total_rows` (via `.get`, so JSON null and absence coincide) and
`offset` (default 0), and record every other top-level key as a dynamic
key.  (The source also `setattr`s each dynamic key's value onto the
instance; those values remain readable here through `result_cache`.) -/
def ViewResults.fetch (vr : ViewResults) : ViewResults :=
  let rc := vr.fetchfn vr.arg vr.params
  { vr with
    result_cache := some rc,
    trows := pyGet rc "total_rows",
    off := (dget rc "offset").getD (.num 0),
    dynamic_keys :=
      (rc.map Prod.fst).filter
        (fun k => k ≠ "total_rows" ∧ k ≠ "offset" ∧ k ≠ "rows") }

/-- `ViewResults._fetch_if_needed`: `if not self._result_cache: self.fetch()`.
This is a truthiness test: both a missing cache and a cached *empty*
mapping trigger a fetch.  Returns the updated object and the number of
executor invocations performed (0 or 1). -/
def ViewResults.fetch_if_needed (vr : ViewResults) : ViewResults × Nat :=
  match vr.result_cache with
  | some rc => if rc.isEmpty then (vr.fetch, 1) else (vr, 0)
  | none => (vr.fetch, 1)

/-- `self._result_cache.get('rows', [])` as a list of row values. -/
def getRows (rc : Dict) : List JsonVal :=
  match dget rc "rows" with
  | some (.arr xs) => xs
  | _ => []

/-- `ViewResults.iterator`: fetch if needed, then yield each row passed
through the wrapper, in server order.  Materialised as the list of wrapped
rows; the third component counts executor invocations. -/
def ViewResults.iterator (vr : ViewResults) : List JsonVal × ViewResults × Nat :=
  let (vr1, n) := vr.fetch_if_needed
  let rows := match vr1.result_cache with
    | some rc => getRows rc
    | none => []
  (rows.map vr1.wrapper, vr1, n)

/-- `ViewResults.all`: `list(self.iterator())`. -/
def ViewResults.all (vr : ViewResults) : List JsonVal × ViewResults × Nat :=
  vr.iterator

/-- `ViewResults.count`: fetch if needed, then the number of rows of the
current page. -/
def ViewResults.count (vr : ViewResults) : Nat × ViewResults × Nat :=
  let (vr1, n) := vr.fetch_if_needed
  let rows := match vr1.result_cache with
    | some rc => getRows rc
    | none => []
  (rows.length, vr1, n)

/-- `ViewResults.first`: `list(self)[0]`, or Python `None` on `IndexError`.
A wrapped row that is itself `None` is indistinguishable from the empty
case, exactly as in Python. -/
def ViewResults.first (vr : ViewResults) : JsonVal × ViewResults × Nat :=
  let (l, vr1, n) := vr.all
  (l.headD .null, vr1, n)

/-- The message `"%s results found." % length`. -/
def resultsFoundMsg (n : Nat) : String :=
  String.mk (Nat.toDigits 10 n) ++ " results found."

/-- `ViewResults.one(except_all)`: `len(self)`, raise `MultipleResultsFound`
when more than one row; otherwise take `first()` and raise `NoResultFound`
when it `is None` and `except_all` is set. -/
def ViewResults.one (vr : ViewResults) (except_all : Bool) :
    Except PyErr JsonVal × ViewResults × Nat :=
  let (length, vr1, n1) := vr.count
  if length > 1 then
    (.error (.multipleResultsFound (resultsFoundMsg length)), vr1, n1)
  else
    let (result, vr2, n2) := vr1.first
    if result.isNull && except_all then (.error .noResultFound, vr2, n1 + n2)
    else (.ok result, vr2, n1 + n2)

/-- `ViewResults.total_rows` property: fetch if needed; when
`self._total_rows is None` (reduce views) fall back to `count()`, else
return the stored value.  The result is a JSON value (`count` yields a
number). -/
def ViewResults.total_rows (vr : ViewResults) : JsonVal × ViewResults × Nat :=
  let (vr1, n1) := vr.fetch_if_needed
  if vr1.trows.isNull then
    let (c, vr2, n2) := vr1.count
    (.num c, vr2, n1 + n2)
  else (vr1.trows, vr1, n1)

/-- `ViewResults.offset` property. -/
def ViewResults.offset (vr : ViewResults) : JsonVal × ViewResults × Nat :=
  let (vr1, n1) := vr.fetch_if_needed
  (vr1.off, vr1, n1)

/-- The argument of `ViewResults.__getitem__`: a slice, a list/tuple, or a
scalar key. -/
inductive PyKey where
  | slice (start stop : Option JsonVal) : PyKey
  | seq (keys : List JsonVal) : PyKey
  | scalar (v : JsonVal) : PyKey

/-- `ViewResults.__getitem__`: copy the parameters, set `startkey`/`endkey`
from a slice's non-None bounds, `keys` from a sequence, `key` from a
scalar, and construct a fresh `ViewResults` with the same fetch function,
path and wrapper and `schema=None`. -/
def ViewResults.getitem (vr : ViewResults) (key : PyKey) : Except PyErr ViewResults :=
  let params := vr.params
  let params' := match key with
    | .slice start stop =>
        let p1 := match start with
          | some v => dset params "startkey" v
          | none => params
        match stop with
        | some v => dset p1 "endkey" v
        | none => p1
    | .seq keys => dset params "keys" (.arr keys)
    | .scalar v => dset params "key" v
  ViewResults.init vr.fetchfn vr.arg (some vr.wrapper) none params'

/-- `ViewResults.__call__`: construct a fresh `ViewResults` with the same
fetch function, path and wrapper, parameters `dict(self.params, **newparams)`
and `schema=None`. -/
def ViewResults.call (vr : ViewResults) (newparams : Dict) : Except PyErr ViewResults :=
  ViewResults.init vr.fetchfn vr.arg (some vr.wrapper) none (dmerge vr.params newparams)

/-!
The macro expansion engine of `couchdbkit/designer/macros.py`.

Source text is processed line by line: the directive regexes
`(\/\/|#)\ ?!code (.*)` and `(\/\/|#)\ ?!json (.*)` never match across a
newline (`.` excludes it), a match always extends to the end of its line,
and `re.sub` keeps whatever precedes the match on the line.  The
filesystem (glob expansion and file reading, `glob.iglob` / `read_file` /
`read_json`) is an external capability, passed in as `FS`.
-/

/-- Python `s.split(sep)` for a single separator character
(`''.split(c) == ['']`). -/
def splitCh (sep : Char) : List Char → List (List Char)
  | [] => [[]]
  | c :: cs =>
      if c = sep then [] :: splitCh sep cs
      else
        match splitCh sep cs with
        | [] => [[c]]
        | p :: ps => (c :: p) :: ps

/-- Python `s.strip()`. -/
def trimCh (l : List Char) : List Char :=
  ((l.dropWhile Char.isWhitespace).reverse.dropWhile Char.isWhitespace).reverse

/-- Python `hay.find(needle) >= 0` (substring containment;
the empty needle is contained everywhere). -/
def containsSub (needle : List Char) : List Char → Bool
  | [] => needle.isEmpty
  | c :: cs => needle.isPrefixOf (c :: cs) || containsSub needle cs

/-- Match a literal prefix, returning the remainder. -/
def stripPre : List Char → List Char → Option (List Char)
  | [], cs => some cs
  | _ :: _, [] => none
  | p :: ps, c :: cs => if c = p then stripPre ps cs else none

/-- The `(\/\/|#)` alternation of the directive regexes. -/
def stripMarker : List Char → Option (List Char)
  | '/' :: '/' :: rest => some rest
  | '#' :: rest => some rest
  | _ => none

/-- Try to match `(\/\/|#)\ ?<tag> (.*)` at the head of `cs`; on success
return the capture group (the rest of the line after the tag and the
mandatory space). -/
def dirMatchAt (tag : List Char) (cs : List Char) : Option (List Char) :=
  match stripMarker cs with
  | none => none
  | some rest =>
      let rest2 := match rest with
        | ' ' :: r => r
        | r => r
      stripPre (tag ++ [' ']) rest2

/-- Leftmost directive match within one line, as Python's regex engine
finds it: the part of the line before the match, and the capture group.
The match itself always extends to the end of the line. -/
def findDir (tag : List Char) : List Char → Option (List Char × List Char)
  | [] => none
  | c :: cs =>
      match dirMatchAt tag (c :: cs) with
      | some g => some ([], g)
      | none =>
          match findDir tag cs with
          | some (pre, g) => some (c :: pre, g)
          | none => none

/-- The `!code` directive tag. -/
def codeTag : List Char := ['!', 'c', 'o', 'd', 'e']

/-- The `!json` directive tag. -/
def jsonTag : List Char := ['!', 'j', 's', 'o', 'n']

/-- `os.path.join(a, b)` for the two-argument, slash-separated case. -/
def os_path_join (a b : List Char) : List Char :=
  if b.head? = some '/' then b
  else if a.isEmpty then b
  else if a.getLast? = some '/' then a ++ b
  else a ++ '/' :: b

/-- The filesystem capability used by the macro engine: `glob.iglob`
(returning matching filenames in order), `read_file`, and `read_json`
(reading and parsing a `.json` file). -/
structure FS where
  glob : String → List String
  read : String → String
  readJson : String → JsonVal

/-- Effectful map over the lines of a text, propagating the first raised
exception (what `re.sub` does when the replacement callback raises). -/
def mapLinesE (f : List Char → Except PyErr (List Char)) :
    List (List Char) → Except PyErr (List (List Char))
  | [] => .ok []
  | l :: ls => do
      let l' ← f l
      let ls' ← mapLinesE f ls
      .ok (l' :: ls')

/-- `run_code_macros`: substitute every `!code` directive line with the
concatenation of the matched files, recursing into file contents that
contain `!code`.  The source recurses without cycle detection, so the
embedding carries fuel; `recursionError` models the non-termination a
self-referential include causes in Python. -/
def run_code_macros (fs : FS) (fuel : Nat) (f_string : String) (app_dir : String) :
    Except PyErr String :=
  match fuel with
  | 0 => .error .recursionError
  | fuel' + 1 => do
      let lines := splitCh '\n' f_string.data
      let lines' ← mapLinesE (fun line =>
        match findDir codeTag line with
        | none => pure line
        | some (pre, g) => do
            let path := os_path_join app_dir.data (trimCh g)
            let files := fs.glob (String.mk path)
            if files.isEmpty then
              .error (.macroError (String.mk
                ("Processing code: No file matching \x27".data ++ g ++ ['\x27'])))
            else do
              let library ← files.foldlM (fun lib fn => do
                  let cnt := fs.read fn
                  let cnt' ←
                    if containsSub codeTag cnt.data then do
                      let r ← run_code_macros fs fuel' cnt app_dir
                      pure r.data
                    else pure cnt.data
                  pure (lib ++ cnt')) ([] : List Char)
              pure (pre ++ library)) lines
      pure (String.mk (List.intercalate ['\n'] lines'))

/-- One escaped character of `json.dumps` string serialization. -/
def escChar (c : Char) : List Char :=
  if c = '"' ∨ c = '\\' then ['\\', c]
  else if c = '\n' then ['\\', 'n']
  else if c = '\t' then ['\\', 't']
  else if c = '\r' then ['\\', 'r']
  else [c]

/-- `json.dumps` of a string. -/
def dumpStr (s : String) : List Char :=
  '"' :: (s.data.map escChar).flatten ++ ['"']

/-- Decimal digits of an integer (`str(i)` for Python ints). -/
def intChars (i : Int) : List Char :=
  match i with
  | .ofNat n => Nat.toDigits 10 n
  | .negSucc n => '-' :: Nat.toDigits 10 (n + 1)

mutual

/-- `json.dumps(v)` with its default separators (Python-2 reading of the
source's `.encode('utf-8')`, which is the identity on the text). -/
def jdump : JsonVal → List Char
  | .obj entries => '\x7b' :: (List.intercalate ", ".data (jdumpEntries entries) ++ ['\x7d'])
  | .arr items => '[' :: (List.intercalate ", ".data (jdumpItems items) ++ [']'])
  | .str text => dumpStr text
  | .num value => intChars value
  | .bool flag => if flag then "true".data else "false".data
  | .null => "null".data

/-- The serialized elements of a JSON array, before separator insertion. -/
def jdumpItems : List JsonVal → List (List Char)
  | [] => []
  | item :: more => jdump item :: jdumpItems more

/-- The serialized `"key": value` members of a JSON object, before
separator insertion. -/
def jdumpEntries : List (String × JsonVal) → List (List Char)
  | [] => []
  | entry :: more => (dumpStr entry.1 ++ ": ".data ++ jdump entry.2) :: jdumpEntries more

end

/-- Python `field in library` for a JSON value: key membership for dicts,
substring test for strings, element equality for lists, and a `TypeError`
for non-iterable values. -/
def strEqVal (k : String) : JsonVal → Bool
  | .str s => k = s
  | _ => false

/-- See `strEqVal`; this is the containment test `rjson` performs while
walking a dotted path. -/
def pyContains (library : JsonVal) (field : String) : Except PyErr Bool :=
  match library with
  | .obj fields => .ok (dget fields field).isSome
  | .str s => .ok (containsSub field.data s.data)
  | .arr xs => .ok (xs.any (strEqVal field))
  | _ => .error (.typeError "argument is not iterable")

/-- Python `library[field]` with a string key. -/
def jindexStr (library : JsonVal) (field : String) : Except PyErr JsonVal :=
  match library with
  | .obj fields =>
      match dget fields field with
      | some v => .ok v
      | none => .error (.keyError field)
  | .str _ => .error (.typeError "string indices must be integers")
  | .arr _ => .error (.typeError "list indices must be integers")
  | _ => .error (.typeError "object is not subscriptable")

/-- Python `target[k] = v`. -/
def pySetItem (target : JsonVal) (k : String) (v : JsonVal) : Except PyErr JsonVal :=
  match target with
  | .obj fields => .ok (.obj (dset fields k v))
  | _ => .error (.typeError "object does not support item assignment")

/-- Python `target.get(k, dflt)`. -/
def pyGetDefault (target : JsonVal) (k : String) (dflt : JsonVal) : Except PyErr JsonVal :=
  match target with
  | .obj fields => .ok ((dget fields k).getD dflt)
  | _ => .error (.attributeError "object has no attribute get")

/-- The dotted-path branch of `rjson`: walk the document segment by
segment; a segment that fails the containment test is logged and skipped
(the loop breaks), but every already-traversed prefix segment has
already been materialised in the accumulated mapping (the source's
`include_to[field] = include_to.get(field, {})` runs before the next
segment is examined).  Returns the updated accumulated mapping. -/
def dottedWalk (library : JsonVal) (fields : List String) (include_to : JsonVal) :
    Except PyErr JsonVal :=
  match fields with
  | [] => .ok include_to
  | field :: rest => do
      let b ← pyContains library field
      if !b then .ok include_to
      else do
        let lib' ← jindexStr library field
        match rest with
        | [] => pySetItem include_to field lib'
        | _ :: _ => do
            let sub ← pyGetDefault include_to field (.obj [])
            let sub' ← dottedWalk lib' rest sub
            pySetItem include_to field sub'

/-- Nest an attachment's content under its path segments; intermediate
levels are overwritten with fresh empty mappings, as in the source. -/
def attachNest (fields : List String) (library : JsonVal) (include_to : JsonVal) :
    Except PyErr JsonVal :=
  match fields with
  | [] => .ok include_to
  | [f] => pySetItem include_to f library
  | f :: rest@(_ :: _) => do
      let sub ← attachNest rest library (.obj [])
      pySetItem include_to f sub

/-- Python `hay.split(sep)` for a substring separator, via fuel bounded by
the text length (each step consumes at least one character). -/
def splitOnSubF (sep : List Char) : Nat → List Char → List Char → List (List Char)
  | _, cur, [] => [cur.reverse]
  | 0, cur, rest => [cur.reverse ++ rest]
  | fuel + 1, cur, c :: cs =>
      if sep.isPrefixOf (c :: cs) then
        cur.reverse :: splitOnSubF sep fuel [] ((c :: cs).drop sep.length)
      else splitOnSubF sep fuel (c :: cur) cs

/-- See `splitOnSubF`; Python raises on an empty separator, which no call
site produces (the separator is the application directory path). -/
def splitOnSub (sep hay : List Char) : List (List Char) :=
  if sep.isEmpty then [hay] else splitOnSubF sep hay.length [] hay

/-- The `_attachments` branch of `rjson`: glob under the application
directory (a glob matching nothing is a fatal `MacroError`, with the same
`Processing code:` message text the `!code` branch uses), read each file
(parsed JSON for `.json`, raw text otherwise), and nest its content under
the path segments of the filename relative to the application directory. -/
def jsonAttachments (fs : FS) (app_dir : String) (g : List Char) (included : JsonVal) :
    Except PyErr JsonVal :=
  let path := os_path_join app_dir.data (trimCh g)
  let files := fs.glob (String.mk path)
  if files.isEmpty then
    .error (.macroError (String.mk
      ("Processing code: No file matching \x27".data ++ g ++ ['\x27'])))
  else
    files.foldlM (fun inc fn => do
        let library : JsonVal :=
          if ".json".data.isSuffixOf fn.data then fs.readJson fn else .str (fs.read fn)
        let current_file := (splitOnSub app_dir.data fn.data).getD 1 []
        let fields := (splitCh '/' current_file).map String.mk
        attachNest fields library inc) included

/-- Process one line of the first `re_json.sub` pass of `run_json_macros`:
if it carries a `!json` directive, accumulate the referenced fragment into
the mapping (the raw capture group decides the `_attachments` branch, the
stripped one is split on dots). -/
def scanLine (fs : FS) (doc : JsonVal) (app_dir : String) (included : JsonVal)
    (line : List Char) : Except PyErr JsonVal :=
  match findDir jsonTag line with
  | none => .ok included
  | some (_, g) =>
      if "_attachments".data.isPrefixOf g then jsonAttachments fs app_dir g included
      else
        let fields := (splitCh '.' (trimCh g)).map String.mk
        dottedWalk doc fields included

/-- One `var <key> = <json.dumps(value)>;` declaration. -/
def varDecl (k : String) (v : JsonVal) : List Char :=
  "var ".data ++ k.data ++ " = ".data ++ jdump v ++ [';']

/-- The first `re_json.sub` pass: fold `scanLine` over the lines,
propagating the first raised exception. -/
def scanLines (fs : FS) (doc : JsonVal) (app_dir : String) :
    JsonVal → List (List Char) → Except PyErr JsonVal
  | acc, [] => .ok acc
  | acc, l :: ls => do
      let acc' ← scanLine fs doc app_dir acc l
      scanLines fs doc app_dir acc' ls

/-- `run_json_macros`: scan every `!json` directive, accumulating resolved
references into a nested mapping.  If nothing was accumulated, return the
text unchanged.  Otherwise the second `re_json.sub` pass replaces every
directive occurrence with the block of variable declarations (one per
top-level accumulated key), keeping whatever precedes the match on each
line. -/
def run_json_macros (fs : FS) (doc : Dict) (f_string : String) (app_dir : String) :
    Except PyErr String := do
  let lines := splitCh '\n' f_string.data
  let included ← scanLines fs (.obj doc) app_dir (JsonVal.obj []) lines
  match included with
  | .obj [] => .ok f_string
  | .obj fields =>
      let block := List.intercalate ['\n'] (fields.map (fun kv => varDecl kv.1 kv.2))
      .ok (String.mk (List.intercalate ['\n'] (lines.map (fun l =>
        match findDir jsonTag l with
        | none => l
        | some (pre, _) => pre ++ block))))
  | _ => .ok f_string

/-!
The change feed consumer (`couchdbkit/consumer/base.py`,
`couchdbkit/consumer/sync.py`).  `db.cloudant_database.changes(**params)`
is the external feed capability; the second component of each result
counts how many feed requests were issued before the call returned or
raised.  Callbacks are modelled by whether they are callable; a callable
callback's invocation has no observable effect on the returned value.
-/

/-- One response of the changes feed: the change events and the feed's
`last_seq` attribute. -/
structure ChangesFeed where
  results : List Dict
  last_seq : JsonVal

/-- A value passed as a callback, which may or may not be callable. -/
structure Callback where
  is_callable : Bool

/-- `check_callable`. -/
def check_callable (cb : Callback) : Except PyErr Unit :=
  if cb.is_callable then .ok () else .error (.typeError "callback isn\x27t a callable")

/-- `ConsumerBase.fetch`: issue the changes request, take the first change;
with no change, return the unchanged `last_seq` and empty results.  With a
change and a callback, `check_callable` runs only now — after the request
— then the callback is invoked and `None` is returned; with no callback,
return the change's `seq` and the single change. -/
def ConsumerBase.fetch (changes : Dict → ChangesFeed) (cb : Option Callback)
    (params : Dict) : Except PyErr JsonVal × Nat :=
  let feed := changes params
  match feed.results with
  | [] => (.ok (.obj [("last_seq", feed.last_seq), ("results", .arr [])]), 1)
  | change :: _ =>
      match cb with
      | some c =>
          match check_callable c with
          | .error e => (.error e, 1)
          | .ok _ => (.ok .null, 1)
      | none =>
          match dget change "seq" with
          | some s => (.ok (.obj [("last_seq", s), ("results", .arr [.obj change])]), 1)
          | none => (.error (.keyError "seq"), 1)

/-- `SyncConsumer.wait_once`: when a callback is given, `check_callable`
runs before the long-poll request; then at most one change is consumed
(passed to the callback, or returned when there is no callback; `None`
when the feed yields nothing or after a callback ran). -/
def SyncConsumer.wait_once (changes : Dict → ChangesFeed) (cb : Option Callback)
    (params : Dict) : Except PyErr JsonVal × Nat :=
  match cb with
  | some c =>
      match check_callable c with
      | .error e => (.error e, 0)
      | .ok _ =>
          let feed := changes (dset params "feed" (.str "longpoll"))
          match feed.results with
          | [] => (.ok .null, 1)
          | _ :: _ => (.ok .null, 1)
  | none =>
      let feed := changes (dset params "feed" (.str "longpoll"))
      match feed.results with
      | [] => (.ok .null, 1)
      | change :: _ => (.ok (.obj change), 1)

/-- `SyncConsumer.wait`: `check_callable` runs before the continuous-feed
request; the callback is then invoked once per change until the feed ends,
and the call returns `None`. -/
def SyncConsumer.wait (changes : Dict → ChangesFeed) (cb : Callback)
    (params : Dict) : Except PyErr JsonVal × Nat :=
  match check_callable cb with
  | .error e => (.error e, 0)
  | .ok _ =>
      let _feed := changes (dset params "feed" (.str "continuous"))
      (.ok .null, 1)

/-- Right-biased choice on options: the first mapping's entry wins when
present.  Used to state what a merged parameter mapping holds at a key. -/
def oOr {α : Type} (a b : Option α) : Option α :=
  match a with
  | some v => some v
  | none => b

/-- The view result `__getitem__` and `__call__` construct: same fetch
function, path and wrapper as the original, given parameters, and all
remaining attributes at their initial values (empty cache in particular). -/
def freshView (vr : ViewResults) (p : Dict) : ViewResults :=
  { fetchfn := vr.fetchfn, arg := vr.arg, wrapper := vr.wrapper, params := p,
    result_cache := none, trows := .null, off := .num 0, dynamic_keys := [] }

/-- A view result whose executor returns a one-row page. -/
def vrC2 : ViewResults :=
  { fetchfn := fun _ _ =>
      [("rows", JsonVal.arr [JsonVal.obj [("id", JsonVal.str "x"), ("value", JsonVal.num 7)]])],
    arg := "v", wrapper := fun r => r, params := [], result_cache := none,
    trows := JsonVal.null, off := JsonVal.num 0, dynamic_keys := [] }

/-- A view result whose executor returns the empty mapping, which is a
falsy cache value. -/
def vrC2e : ViewResults :=
  { fetchfn := fun _ _ => [], arg := "v", wrapper := fun r => r, params := [],
    result_cache := none, trows := JsonVal.null, off := JsonVal.num 0, dynamic_keys := [] }

/-- A view result whose executor returns a two-row page. -/
def vrC4w : ViewResults :=
  { fetchfn := fun _ _ =>
      [("total_rows", JsonVal.num 2),
       ("rows", JsonVal.arr
         [JsonVal.obj [("id", JsonVal.str "a"), ("value", JsonVal.num 1)],
          JsonVal.obj [("id", JsonVal.str "b"), ("value", JsonVal.num 2)]])],
    arg := "v", wrapper := fun r => r, params := [], result_cache := none,
    trows := JsonVal.null, off := JsonVal.num 0, dynamic_keys := [] }

/-- A view result with a value-extracting row wrapper and a single row
whose `value` is JSON null, so the single wrapped row is Python `None`. -/
def vrC4e : ViewResults :=
  { fetchfn := fun _ _ =>
      [("rows", JsonVal.arr [JsonVal.obj [("id", JsonVal.str "a"), ("value", JsonVal.null)]])],
    arg := "v",
    wrapper := fun row => match row with | .obj f => pyGet f "value" | _ => .null,
    params := [], result_cache := none,
    trows := JsonVal.null, off := JsonVal.num 0, dynamic_keys := [] }

/-- A view result whose raw response carries `total_rows` 100, `offset`
10 and a five-row page. -/
def vrC6 : ViewResults :=
  { fetchfn := fun _ _ =>
      [("total_rows", JsonVal.num 100), ("offset", JsonVal.num 10),
       ("rows", JsonVal.arr
         [JsonVal.obj [("id", JsonVal.str "a")], JsonVal.obj [("id", JsonVal.str "b")],
          JsonVal.obj [("id", JsonVal.str "c")], JsonVal.obj [("id", JsonVal.str "d")],
          JsonVal.obj [("id", JsonVal.str "e")]])],
    arg := "v", wrapper := fun r => r, params := [], result_cache := none,
    trows := JsonVal.null, off := JsonVal.num 0, dynamic_keys := [] }

/-! Lemmas about the dict embedding. -/

theorem dget_dset_self (d : Dict) (k : String) (v : JsonVal) :
    dget (dset d k v) k = some v := by
  induction d with
  | nil => simp [dget, dset]
  | cons kv rest ih =>
      obtain ⟨a, b⟩ := kv
      by_cases hak : a = k
      · subst hak
        simp [dget, dset]
      · simp [dget, dset, hak, ih]

theorem dget_dset_ne (d : Dict) (k k' : String) (v : JsonVal) (h : k' ≠ k) :
    dget (dset d k v) k' = dget d k' := by
  induction d with
  | nil => simp [dget, dset, Ne.symm h]
  | cons kv rest ih =>
      obtain ⟨a, b⟩ := kv
      by_cases hak : a = k
      · subst hak
        simp [dget, dset, Ne.symm h]
      · by_cases hak' : a = k'
        · subst hak'
          simp [dget, dset, hak]
        · simp [dget, dset, hak, hak', ih]

theorem dget_eq_none (d : Dict) (k : String) (h : k ∉ d.map Prod.fst) :
    dget d k = none := by
  induction d with
  | nil => rfl
  | cons kv rest ih =>
      obtain ⟨a, b⟩ := kv
      rw [List.map_cons, List.mem_cons] at h
      push_neg at h
      simp [dget, Ne.symm h.1, ih h.2]

theorem dget_dmerge (d1 d2 : Dict) (h : (d2.map Prod.fst).Nodup) (k : String) :
    dget (dmerge d1 d2) k = oOr (dget d2 k) (dget d1 k) := by
  induction d2 generalizing d1 with
  | nil => simp [dmerge, dget, oOr]
  | cons kv rest ih =>
      obtain ⟨a, b⟩ := kv
      rw [List.map_cons, List.nodup_cons] at h
      have hmerge : dmerge d1 ((a, b) :: rest) = dmerge (dset d1 a b) rest := rfl
      rw [hmerge, ih (dset d1 a b) h.2]
      by_cases hak : a = k
      · subst hak
        rw [dget_eq_none rest a h.1]
        simp [dget, dget_dset_self, oOr]
      · simp [dget, hak, dget_dset_ne _ _ _ _ (Ne.symm hak)]

theorem fst_of_ite {α β : Type} (P : Prop) [Decidable P] (x y : α × β) :
    (if P then x else y).1 = if P then x.1 else y.1 := by
  split <;> rfl

/-- C1: re-calling a view result with override parameters yields a new
view result whose parameters are the right-biased merge of the old
parameters with the overrides, whose wrapper is the original's, and whose
result cache is a fresh empty one, separate from the original's (the
original record is never modified). -/
theorem C1_call_merges_params (vr : ViewResults) (p2 : Dict)
    (h : (p2.map Prod.fst).Nodup) :
    ∃ w, vr.call p2 = .ok w ∧ w.wrapper = vr.wrapper ∧ w.result_cache = none ∧
      ∀ k, dget w.params k = oOr (dget p2 k) (dget vr.params k) := by
  have hcall : vr.call p2 = .ok
      { fetchfn := vr.fetchfn, arg := vr.arg, wrapper := vr.wrapper,
        params := dmerge vr.params p2, result_cache := none,
        trows := .null, off := .num 0, dynamic_keys := [] } := by
    simp [ViewResults.call, ViewResults.init]
  exact ⟨_, hcall, rfl, rfl, fun k => dget_dmerge vr.params p2 h k⟩

/-- Witness for C1 at concrete parameter mappings. -/
theorem C1_call_merges_params_witness :
    ∃ w, ViewResults.call
        { fetchfn := fun _ _ => [], arg := "v", wrapper := fun r => r,
          params := [("a", JsonVal.num 1), ("b", JsonVal.num 2)],
          result_cache := none, trows := JsonVal.null, off := JsonVal.num 0,
          dynamic_keys := [] }
        [("b", JsonVal.num 9), ("c", JsonVal.num 3)] = .ok w ∧
      w.wrapper = (fun r => r) ∧ w.result_cache = none ∧
      ∀ k, dget w.params k =
        oOr (dget [("b", JsonVal.num 9), ("c", JsonVal.num 3)] k)
          (dget [("a", JsonVal.num 1), ("b", JsonVal.num 2)] k) :=
  C1_call_merges_params _ _ (by decide)

/-- C5 (confirmed): the index operator returns a new uncached view result
with the same wrapper; a slice sets `startkey`/`endkey` from its non-null
bounds only, a sequence sets `keys`, a scalar sets `key`, and every other
parameter is carried over unchanged. -/
theorem C5_getitem_spec (vr : ViewResults) (key : PyKey) :
    ∃ w, vr.getitem key = .ok w ∧ w.wrapper = vr.wrapper ∧ w.result_cache = none ∧
      (match key with
       | .slice a b =>
           dget w.params "startkey" = oOr a (dget vr.params "startkey") ∧
           dget w.params "endkey" = oOr b (dget vr.params "endkey") ∧
           ∀ k, k ≠ "startkey" → k ≠ "endkey" → dget w.params k = dget vr.params k
       | .seq xs =>
           dget w.params "keys" = some (.arr xs) ∧
           ∀ k, k ≠ "keys" → dget w.params k = dget vr.params k
       | .scalar v =>
           dget w.params "key" = some v ∧
           ∀ k, k ≠ "key" → dget w.params k = dget vr.params k) := by
  cases key with
  | slice a b =>
      cases a with
      | none =>
          cases b with
          | none =>
              refine ⟨freshView vr vr.params,
                by simp [ViewResults.getitem, ViewResults.init, freshView],
                rfl, rfl, rfl, rfl, fun k _ _ => rfl⟩
          | some vb =>
              refine ⟨freshView vr (dset vr.params "endkey" vb),
                by simp [ViewResults.getitem, ViewResults.init, freshView],
                rfl, rfl, ?_, ?_, ?_⟩
              · exact dget_dset_ne _ _ _ _ (by decide)
              · exact dget_dset_self _ _ _
              · exact fun k _ hk2 => dget_dset_ne _ _ _ _ hk2
      | some va =>
          cases b with
          | none =>
              refine ⟨freshView vr (dset vr.params "startkey" va),
                by simp [ViewResults.getitem, ViewResults.init, freshView],
                rfl, rfl, ?_, ?_, ?_⟩
              · exact dget_dset_self _ _ _
              · exact dget_dset_ne _ _ _ _ (by decide)
              · exact fun k hk1 _ => dget_dset_ne _ _ _ _ hk1
          | some vb =>
              refine ⟨freshView vr (dset (dset vr.params "startkey" va) "endkey" vb),
                by simp [ViewResults.getitem, ViewResults.init, freshView],
                rfl, rfl, ?_, ?_, ?_⟩
              · show dget (dset (dset vr.params "startkey" va) "endkey" vb) "startkey"
                  = oOr (some va) (dget vr.params "startkey")
                rw [dget_dset_ne _ _ _ _ (by decide)]
                exact dget_dset_self _ _ _
              · exact dget_dset_self _ _ _
              · exact fun k hk1 hk2 => by
                  show dget (dset (dset vr.params "startkey" va) "endkey" vb) k
                    = dget vr.params k
                  rw [dget_dset_ne _ _ _ _ hk2]
                  exact dget_dset_ne _ _ _ _ hk1
  | seq xs =>
      refine ⟨freshView vr (dset vr.params "keys" (.arr xs)),
        by simp [ViewResults.getitem, ViewResults.init, freshView],
        rfl, rfl, ?_, ?_⟩
      · exact dget_dset_self _ _ _
      · exact fun k hk => dget_dset_ne _ _ _ _ hk
  | scalar v =>
      refine ⟨freshView vr (dset vr.params "key" v),
        by simp [ViewResults.getitem, ViewResults.init, freshView],
        rfl, rfl, ?_, ?_⟩
      · exact dget_dset_self _ _ _
      · exact fun k hk => dget_dset_ne _ _ _ _ hk

/-- Witness for C5 at a concrete view result and slice. -/
theorem C5_getitem_spec_witness :
    ∃ w, ViewResults.getitem
        { fetchfn := fun _ _ => [], arg := "v", wrapper := fun r => r,
          params := [("limit", JsonVal.num 10)], result_cache := none,
          trows := JsonVal.null, off := JsonVal.num 0, dynamic_keys := [] }
        (.slice (some (JsonVal.num 1)) (some (JsonVal.num 5))) = .ok w ∧
      w.wrapper = (fun r => r) ∧ w.result_cache = none ∧
      (dget w.params "startkey" =
        oOr (some (JsonVal.num 1)) (dget [("limit", JsonVal.num 10)] "startkey") ∧
       dget w.params "endkey" =
        oOr (some (JsonVal.num 5)) (dget [("limit", JsonVal.num 10)] "endkey") ∧
       ∀ k, k ≠ "startkey" → k ≠ "endkey" →
        dget w.params k = dget [("limit", JsonVal.num 10)] k) :=
  C5_getitem_spec _ (.slice (some (JsonVal.num 1)) (some (JsonVal.num 5)))

/-- C7 (amended): constructing a view result with both a wrapper and a
schema fails eagerly — but with the `AssertionError` of the source's
`assert not (wrapper and schema)`, not with a `ConfigurationError` (the
library defines no such exception class); no view result is produced. -/
theorem C7_both_wrapper_and_schema (f : String → Dict → Dict) (a : String)
    (w s : JsonVal → JsonVal) (params : Dict) :
    ViewResults.init f a (some w) (some s) params = .error .assertionError := by
  simp [ViewResults.init]

/-- Witness for C7 at a concrete construction. -/
theorem C7_both_wrapper_and_schema_witness :
    ViewResults.init (fun _ _ => []) "v" (some (fun r => r)) (some (fun r => r)) []
      = .error .assertionError :=
  C7_both_wrapper_and_schema _ _ _ _ _

/-- Counterexample for C7 as stated: the failure is an `AssertionError`,
which is not the `ConfigurationError` the claim names. -/
theorem C7_counterexample :
    ViewResults.init (fun _ _ => []) "v" (some (fun r => r)) (some (fun r => r)) []
      = .error .assertionError ∧
    (Except.error PyErr.assertionError : Except PyErr ViewResults)
      ≠ .error .configurationError := by
  constructor
  · simp [ViewResults.init]
  · simp

/-- C2 (amended): on a view result whose fetched response mapping is
non-empty (truthy), the first `all()` invokes the executor exactly once,
and any further `all()` or `count()` on the resulting object returns the
same list while invoking the executor zero more times.  (The amendment:
the source tests the cache with `if not self._result_cache`, so a cached
*empty* response mapping is falsy and is fetched again — see the
counterexample.) -/
theorem C2_all_cached_amended (vr : ViewResults) (h : vr.result_cache = none)
    (hne : vr.fetchfn vr.arg vr.params ≠ []) :
    (vr.all).2.2 = 1 ∧
    ((vr.all).2.1.all).1 = (vr.all).1 ∧
    ((vr.all).2.1.all).2.2 = 0 ∧
    ((vr.all).2.1.count).2.2 = 0 := by
  simp [ViewResults.all, ViewResults.iterator, ViewResults.count,
        ViewResults.fetch_if_needed, ViewResults.fetch, h,
        List.isEmpty_iff, hne]

/-- Witness for C2 at a concrete one-row executor. -/
theorem C2_all_cached_amended_witness :
    (vrC2.all).2.2 = 1 ∧ ((vrC2.all).2.1.all).1 = (vrC2.all).1 ∧
    ((vrC2.all).2.1.all).2.2 = 0 ∧ ((vrC2.all).2.1.count).2.2 = 0 :=
  C2_all_cached_amended vrC2 rfl (by simp [vrC2])

/-- Counterexample for C2 as stated: with an executor answering the empty
mapping, the first `all()` populates the cache, yet a second `all()` on
the same instance invokes the executor again (truthiness of the cache). -/
theorem C2_counterexample :
    (vrC2e.all).2.2 = 1 ∧ ((vrC2e.all).2.1).result_cache = some [] ∧
    ((vrC2e.all).2.1.all).2.2 = 1 :=
  ⟨rfl, rfl, rfl⟩

/-- C4 (amended): `one(exceptAll)` raises `MultipleResultsFound` when the
row count exceeds 1; otherwise it takes the first wrapped row (Python
`None` when there is none) and raises `NoResultFound` when that value is
`None` and `exceptAll` is set — which covers both the empty result set
and a single row whose *wrapped* value is `None` — and returns the value
in the remaining cases. -/
theorem C4_one_amended (vr : ViewResults) (except_all : Bool)
    (h : vr.result_cache = none) :
    (vr.one except_all).1 =
      if 1 < (getRows (vr.fetchfn vr.arg vr.params)).length then
        .error (.multipleResultsFound
          (resultsFoundMsg (getRows (vr.fetchfn vr.arg vr.params)).length))
      else if (((getRows (vr.fetchfn vr.arg vr.params)).map vr.wrapper).headD
          .null).isNull && except_all then
        .error .noResultFound
      else
        .ok (((getRows (vr.fetchfn vr.arg vr.params)).map vr.wrapper).headD .null) := by
  by_cases hrc : vr.fetchfn vr.arg vr.params = []
  · simp [ViewResults.one, ViewResults.count, ViewResults.first, ViewResults.all,
      ViewResults.iterator, ViewResults.fetch_if_needed, ViewResults.fetch, h, hrc,
      getRows, dget]
    simp [fst_of_ite]
  · simp [ViewResults.one, ViewResults.count, ViewResults.first, ViewResults.all,
      ViewResults.iterator, ViewResults.fetch_if_needed, ViewResults.fetch, h, hrc,
      List.isEmpty_iff]
    simp [fst_of_ite]

/-- Witness for C4 at a concrete two-row page. -/
theorem C4_one_amended_witness :
    (vrC4w.one false).1 =
      if 1 < (getRows (vrC4w.fetchfn vrC4w.arg vrC4w.params)).length then
        .error (.multipleResultsFound
          (resultsFoundMsg (getRows (vrC4w.fetchfn vrC4w.arg vrC4w.params)).length))
      else if (((getRows (vrC4w.fetchfn vrC4w.arg vrC4w.params)).map vrC4w.wrapper).headD
          .null).isNull && false then
        .error .noResultFound
      else
        .ok (((getRows (vrC4w.fetchfn vrC4w.arg vrC4w.params)).map vrC4w.wrapper).headD
          .null) :=
  C4_one_amended vrC4w false rfl

/-- Counterexample for C4 as stated: a page with exactly one row whose
wrapped value is `None` makes `one(exceptAll=true)` raise
`NoResultFound` instead of returning the single wrapped row. -/
theorem C4_counterexample :
    (getRows (vrC4e.fetchfn vrC4e.arg vrC4e.params)).length = 1 ∧
    (vrC4e.one true).1 = .error .noResultFound :=
  ⟨rfl, rfl⟩

/-- C6: `count()` returns the number of rows of the current page; the
`total_rows` property falls back to `count()` when the response carries
no usable `total_rows` (for the source, an absent key and an explicit
JSON null are the same Python `None`), and returns the server-supplied
value otherwise. -/
theorem C6_count_and_total_rows (vr : ViewResults) (v : JsonVal)
    (h : vr.result_cache = none) :
    (vr.count).1 = (getRows (vr.fetchfn vr.arg vr.params)).length ∧
    (dget (vr.fetchfn vr.arg vr.params) "total_rows" = none →
      (vr.total_rows).1 = .num (getRows (vr.fetchfn vr.arg vr.params)).length) ∧
    (dget (vr.fetchfn vr.arg vr.params) "total_rows" = some v → v.isNull = false →
      (vr.total_rows).1 = v) := by
  refine ⟨?_, ?_, ?_⟩
  · simp [ViewResults.count, ViewResults.fetch_if_needed, ViewResults.fetch, h]
  · intro htr
    by_cases hrc : vr.fetchfn vr.arg vr.params = []
    · simp [ViewResults.total_rows, ViewResults.count, ViewResults.fetch_if_needed,
        ViewResults.fetch, h, htr, hrc, pyGet, JsonVal.isNull, getRows, dget]
    · simp [ViewResults.total_rows, ViewResults.count, ViewResults.fetch_if_needed,
        ViewResults.fetch, h, htr, hrc, pyGet, JsonVal.isNull, List.isEmpty_iff]
  · intro htr hv
    simp [ViewResults.total_rows, ViewResults.count, ViewResults.fetch_if_needed,
      ViewResults.fetch, h, htr, hv, pyGet]

/-- Witness for C6 at the response page with `total_rows` 100, `offset`
10 and five rows. -/
theorem C6_count_and_total_rows_witness :
    (vrC6.count).1 = (getRows (vrC6.fetchfn vrC6.arg vrC6.params)).length ∧
    (dget (vrC6.fetchfn vrC6.arg vrC6.params) "total_rows" = none →
      (vrC6.total_rows).1 = .num (getRows (vrC6.fetchfn vrC6.arg vrC6.params)).length) ∧
    (dget (vrC6.fetchfn vrC6.arg vrC6.params) "total_rows" = some (JsonVal.num 100) →
      (JsonVal.num 100).isNull = false → (vrC6.total_rows).1 = JsonVal.num 100) :=
  C6_count_and_total_rows vrC6 (JsonVal.num 100) rfl

/-! Lemmas about the text scanning helpers. -/

theorem data_mk (l : List Char) : (String.mk l).data = l := rfl

theorem except_bind_ok {ε α β : Type} (a : α) (f : α → Except ε β) :
    (Except.ok a : Except ε α) >>= f = f a := rfl

theorem except_bind_error {ε α β : Type} (e : ε) (f : α → Except ε β) :
    (Except.error e : Except ε α) >>= f = .error e := rfl

theorem splitCh_of_not_mem (sep : Char) (l : List Char) (h : sep ∉ l) :
    splitCh sep l = [l] := by
  induction l with
  | nil => rfl
  | cons c cs ih =>
      rw [List.mem_cons] at h
      push_neg at h
      have h1 : ¬ c = sep := fun hc => h.1 hc.symm
      simp [splitCh, h1, ih h.2]

theorem stripPre_append (xs ys : List Char) : stripPre xs (xs ++ ys) = some ys := by
  induction xs with
  | nil => rfl
  | cons p ps ih => simp [stripPre, ih]

theorem dirMatchAt_head (tag g : List Char) :
    dirMatchAt tag ('/' :: '/' :: ' ' :: (tag ++ (' ' :: g))) = some g := by
  show stripPre (tag ++ [' ']) (tag ++ (' ' :: g)) = some g
  rw [show tag ++ (' ' :: g) = (tag ++ [' ']) ++ g by simp]
  exact stripPre_append _ _

theorem findDir_head (tag g : List Char) :
    findDir tag ('/' :: '/' :: ' ' :: (tag ++ (' ' :: g))) = some ([], g) := by
  simp [findDir, dirMatchAt_head]

theorem splitCh_append_cons (f0 tl : List Char) (h : '.' ∉ f0) :
    splitCh '.' (f0 ++ '.' :: tl) = f0 :: splitCh '.' tl := by
  induction f0 with
  | nil => simp [splitCh]
  | cons c cs ih =>
      rw [List.mem_cons] at h
      push_neg at h
      have h1 : ¬ c = '.' := fun hc => h.1 hc.symm
      simp [splitCh, h1, ih h.2]

theorem intercalate_single (sep x : List Char) : List.intercalate sep [x] = x := by
  simp [List.intercalate]

/-- C8: a required include whose glob matches no file is fatal: a `!code`
directive with an empty glob raises `MacroError`, and a
`!json _attachments/...` directive with an empty glob likewise raises
`MacroError` (with the same message template), aborting the expansion. -/
theorem C8_missing_include_fatal (fs : FS) (app_dir : String) (g r : List Char)
    (doc : Dict) (n : Nat)
    (hg : '\n' ∉ g) (hr : '\n' ∉ r)
    (hglob1 : fs.glob (String.mk (os_path_join app_dir.data (trimCh g))) = [])
    (hglob2 : fs.glob (String.mk (os_path_join app_dir.data (trimCh r))) = [])
    (hatt : "_attachments".data.isPrefixOf r = true) :
    run_code_macros fs (n + 1)
        (String.mk ('/' :: '/' :: ' ' :: (codeTag ++ (' ' :: g)))) app_dir
      = .error (.macroError (String.mk
          ("Processing code: No file matching \x27".data ++ g ++ ['\x27']))) ∧
    run_json_macros fs doc
        (String.mk ('/' :: '/' :: ' ' :: (jsonTag ++ (' ' :: r)))) app_dir
      = .error (.macroError (String.mk
          ("Processing code: No file matching \x27".data ++ r ++ ['\x27']))) := by
  have hlineg : '\n' ∉ ('/' :: '/' :: ' ' :: (codeTag ++ (' ' :: g))) := by
    simpa [codeTag] using hg
  have hliner : '\n' ∉ ('/' :: '/' :: ' ' :: (jsonTag ++ (' ' :: r))) := by
    simpa [jsonTag] using hr
  constructor
  · simp [run_code_macros, data_mk, splitCh_of_not_mem _ _ hlineg, mapLinesE,
      findDir_head, hglob1, except_bind_ok, except_bind_error]
  · simp [run_json_macros, data_mk, splitCh_of_not_mem _ _ hliner, scanLines,
      scanLine, findDir_head, hatt, jsonAttachments, hglob2,
      except_bind_ok, except_bind_error]

/-- Witness for C8 at a concrete empty filesystem and directives. -/
theorem C8_missing_include_fatal_witness :
    run_code_macros { glob := fun _ => [], read := fun _ => "", readJson := fun _ => .null }
        (0 + 1) (String.mk ('/' :: '/' :: ' ' :: (codeTag ++ (' ' :: "a.js".data)))) "/app"
      = .error (.macroError (String.mk
          ("Processing code: No file matching \x27".data ++ "a.js".data ++ ['\x27']))) ∧
    run_json_macros { glob := fun _ => [], read := fun _ => "", readJson := fun _ => .null }
        [] (String.mk ('/' :: '/' :: ' ' :: (jsonTag ++ (' ' :: "_attachments/x".data)))) "/app"
      = .error (.macroError (String.mk
          ("Processing code: No file matching \x27".data ++ "_attachments/x".data ++ ['\x27']))) :=
  C8_missing_include_fatal _ "/app" "a.js".data "_attachments/x".data [] 0
    (by decide) (by decide) rfl rfl (by decide)

/-- C3 (amended): when the scan resolves no reference, the source text is
returned unchanged; when it resolves at least one, *every* `!json`
directive occurrence — not only the first — is replaced by the same full
block of variable declarations (one per top-level accumulated key). -/
theorem C3_json_macros_amended (fs : FS) (doc : Dict) (app_dir : String)
    (s : String) (inc : List (String × JsonVal))
    (hscan : scanLines fs (.obj doc) app_dir (.obj []) (splitCh '\n' s.data)
      = .ok (.obj inc)) :
    (inc = [] → run_json_macros fs doc s app_dir = .ok s) ∧
    (inc ≠ [] → run_json_macros fs doc s app_dir
      = .ok (String.mk (List.intercalate ['\n'] ((splitCh '\n' s.data).map (fun l =>
          match findDir jsonTag l with
          | none => l
          | some (pre, _) =>
              pre ++ List.intercalate ['\n'] (inc.map (fun kv => varDecl kv.1 kv.2))))))) := by
  constructor
  · intro h
    subst h
    simp [run_json_macros, hscan, except_bind_ok]
  · intro h
    cases inc with
    | nil => exact absurd rfl h
    | cons kv rest => simp [run_json_macros, hscan, except_bind_ok]

/-- Witness for C3 at a one-directive text whose reference resolves. -/
theorem C3_json_macros_amended_witness :
    (([("a", JsonVal.num 1)] : List (String × JsonVal)) = [] →
      run_json_macros { glob := fun _ => [], read := fun _ => "", readJson := fun _ => .null }
        [("a", JsonVal.num 1)] "// !json a" "/app" = .ok "// !json a") ∧
    (([("a", JsonVal.num 1)] : List (String × JsonVal)) ≠ [] →
      run_json_macros { glob := fun _ => [], read := fun _ => "", readJson := fun _ => .null }
        [("a", JsonVal.num 1)] "// !json a" "/app"
      = .ok (String.mk (List.intercalate ['\n'] ((splitCh '\n' ("// !json a").data).map (fun l =>
          match findDir jsonTag l with
          | none => l
          | some (pre, _) =>
              pre ++ List.intercalate ['\n']
                (([("a", JsonVal.num 1)] : List (String × JsonVal)).map
                  (fun kv => varDecl kv.1 kv.2))))))) :=
  C3_json_macros_amended _ [("a", JsonVal.num 1)] "/app" "// !json a" [("a", JsonVal.num 1)] rfl

/-- Counterexample for C3 as stated: with two resolving directives the
full declaration block appears at *both* occurrences; the second one is
neither removed (which would leave an empty line) nor left in place. -/
theorem C3_counterexample :
    run_json_macros { glob := fun _ => [], read := fun _ => "", readJson := fun _ => .null }
      [("a", JsonVal.num 1), ("b", JsonVal.num 2)] "// !json a\n// !json b" "/app"
      = .ok "var a = 1;\nvar b = 2;\nvar a = 1;\nvar b = 2;" ∧
    ("var a = 1;\nvar b = 2;\nvar a = 1;\nvar b = 2;" : String)
      ≠ "var a = 1;\nvar b = 2;\n" ∧
    ("var a = 1;\nvar b = 2;\nvar a = 1;\nvar b = 2;" : String)
      ≠ "var a = 1;\nvar b = 2;\n// !json b" :=
  ⟨rfl, by decide, by decide⟩

/-- C10: a dotted-path `!json` directive of two or more segments whose
first segment resolves in the document root to a mapping but whose second
segment is missing there is not skipped entirely: the traversed prefix is
recorded in the accumulated mapping, so the expansion emits a
`var <first-segment> = {};` declaration and the source text is changed. -/
theorem C10_partial_prefix_emitted (fs : FS) (doc o : Dict) (app_dir : String)
    (f0 t1 tl : List Char) (trest : List (List Char))
    (hdot : '.' ∉ f0) (hnl : '\n' ∉ f0) (htnl : '\n' ∉ tl)
    (hatt : "_attachments".data.isPrefixOf (f0 ++ '.' :: tl) = false)
    (htrim : trimCh (f0 ++ '.' :: tl) = f0 ++ '.' :: tl)
    (hsplit : splitCh '.' tl = t1 :: trest)
    (hfirst : dget doc (String.mk f0) = some (.obj o))
    (hmiss : dget o (String.mk t1) = none) :
    run_json_macros fs doc
        (String.mk ('/' :: '/' :: ' ' :: (jsonTag ++ (' ' :: (f0 ++ '.' :: tl))))) app_dir
      = .ok (String.mk (['v', 'a', 'r', ' '] ++ f0 ++ [' ', '=', ' ', '\x7b', '\x7d', ';'])) ∧
    String.mk (['v', 'a', 'r', ' '] ++ f0 ++ [' ', '=', ' ', '\x7b', '\x7d', ';'])
      ≠ String.mk ('/' :: '/' :: ' ' :: (jsonTag ++ (' ' :: (f0 ++ '.' :: tl)))) := by
  have hline : '\n' ∉ ('/' :: '/' :: ' ' :: (jsonTag ++ (' ' :: (f0 ++ '.' :: tl)))) := by
    simp [jsonTag, hnl, htnl]
  constructor
  · simp [run_json_macros, data_mk, splitCh_of_not_mem _ _ hline, scanLines, scanLine,
      findDir_head, hatt, htrim, splitCh_append_cons _ _ hdot, hsplit,
      dottedWalk, pyContains, hfirst, jindexStr, pyGetDefault, hmiss, pySetItem,
      dget, dset, varDecl, jdump, jdumpEntries, intercalate_single, except_bind_ok,
      show ("var ".data : List Char) = ['v', 'a', 'r', ' '] from rfl,
      show (" = ".data : List Char) = [' ', '=', ' '] from rfl,
      show (List.intercalate ", ".data ([] : List (List Char))) = [] from rfl]
  · intro h
    have h2 := congrArg String.data h
    simp [data_mk] at h2

/-- Witness for C10 at the directive `// !json a.b` against the document
root `{"a": {"c": 1}}`. -/
theorem C10_partial_prefix_emitted_witness :
    run_json_macros { glob := fun _ => [], read := fun _ => "", readJson := fun _ => .null }
        [("a", JsonVal.obj [("c", JsonVal.num 1)])]
        (String.mk ('/' :: '/' :: ' ' :: (jsonTag ++ (' ' :: (['a'] ++ '.' :: ['b']))))) "/app"
      = .ok (String.mk (['v', 'a', 'r', ' '] ++ ['a'] ++ [' ', '=', ' ', '\x7b', '\x7d', ';'])) ∧
    String.mk (['v', 'a', 'r', ' '] ++ ['a'] ++ [' ', '=', ' ', '\x7b', '\x7d', ';'])
      ≠ String.mk ('/' :: '/' :: ' ' :: (jsonTag ++ (' ' :: (['a'] ++ '.' :: ['b'])))) :=
  C10_partial_prefix_emitted _ [("a", JsonVal.obj [("c", JsonVal.num 1)])]
    [("c", JsonVal.num 1)] "/app" ['a'] ['b'] ['b'] []
    (by decide) (by decide) (by decide) rfl rfl rfl rfl rfl

/-- C9 (amended): a non-callable callback makes `wait_once` and `wait`
fail with a `TypeError` before any feed request is issued; `fetch`,
however, issues the changes request first and checks the callback only
once a change has arrived — when the feed yields no change, the
non-callable callback raises no error at all. -/
theorem C9_callback_check_amended (changes : Dict → ChangesFeed) (c : Callback)
    (params : Dict) (ch : Dict) (rest : List Dict)
    (h : c.is_callable = false) :
    SyncConsumer.wait_once changes (some c) params
      = (.error (.typeError "callback isn\x27t a callable"), 0) ∧
    SyncConsumer.wait changes c params
      = (.error (.typeError "callback isn\x27t a callable"), 0) ∧
    ((changes params).results = [] →
      ConsumerBase.fetch changes (some c) params
        = (.ok (.obj [("last_seq", (changes params).last_seq), ("results", .arr [])]), 1)) ∧
    ((changes params).results = ch :: rest →
      ConsumerBase.fetch changes (some c) params
        = (.error (.typeError "callback isn\x27t a callable"), 1)) := by
  refine ⟨?_, ?_, ?_, ?_⟩
  · simp [SyncConsumer.wait_once, check_callable, h]
  · simp [SyncConsumer.wait, check_callable, h]
  · intro he
    simp [ConsumerBase.fetch, he]
  · intro he
    simp [ConsumerBase.fetch, he, check_callable, h]

/-- Witness for C9 at a concrete single-change feed and a non-callable
callback. -/
theorem C9_callback_check_amended_witness :
    SyncConsumer.wait_once (fun _ => ⟨[[("seq", JsonVal.num 1)]], JsonVal.num 0⟩)
        (some ⟨false⟩) []
      = (.error (.typeError "callback isn\x27t a callable"), 0) ∧
    SyncConsumer.wait (fun _ => ⟨[[("seq", JsonVal.num 1)]], JsonVal.num 0⟩) ⟨false⟩ []
      = (.error (.typeError "callback isn\x27t a callable"), 0) ∧
    (((fun (_ : Dict) => (⟨[[("seq", JsonVal.num 1)]], JsonVal.num 0⟩ : ChangesFeed)) []).results = [] →
      ConsumerBase.fetch (fun _ => ⟨[[("seq", JsonVal.num 1)]], JsonVal.num 0⟩) (some ⟨false⟩) []
        = (.ok (.obj [("last_seq",
            ((fun (_ : Dict) => (⟨[[("seq", JsonVal.num 1)]], JsonVal.num 0⟩ : ChangesFeed)) []).last_seq),
            ("results", .arr [])]), 1)) ∧
    (((fun (_ : Dict) => (⟨[[("seq", JsonVal.num 1)]], JsonVal.num 0⟩ : ChangesFeed)) []).results
        = [("seq", JsonVal.num 1)] :: [] →
      ConsumerBase.fetch (fun _ => ⟨[[("seq", JsonVal.num 1)]], JsonVal.num 0⟩) (some ⟨false⟩) []
        = (.error (.typeError "callback isn\x27t a callable"), 1)) :=
  C9_callback_check_amended _ ⟨false⟩ [] [("seq", JsonVal.num 1)] [] rfl

/-- Counterexample for C9 as stated: `fetch` with a non-callable callback
issues the changes request (request count 1) before the `TypeError`, and
against an empty feed it raises no error at all. -/
theorem C9_counterexample :
    ConsumerBase.fetch (fun _ => ⟨[[("seq", JsonVal.num 1)]], JsonVal.num 0⟩)
        (some ⟨false⟩) []
      = (.error (.typeError "callback isn\x27t a callable"), 1) ∧
    (1 : Nat) ≠ 0 ∧
    ConsumerBase.fetch (fun _ => ⟨[], JsonVal.num 5⟩) (some ⟨false⟩) []
      = (.ok (.obj [("last_seq", JsonVal.num 5), ("results", .arr [])]), 1) :=
  ⟨rfl, by decide, rfl⟩
